import Mathlib

/-!
Verification of the thor orbital-element coordinate-transformation engine.

The Python sources under `thor/coordinates/` (keplerian.py, cometary.py,
cartesian.py, coordinates.py) are embedded shallowly:

* float64 scalars are modelled as exact real numbers (`ℝ`) for the orbital
  mechanics, and as exact rationals (`ℚ`) for the container/covariance layer
  where all the relevant arithmetic is rational and decidable;
* the special float values that the source produces *explicitly*
  (`jnp.nan` for undefined quantities, `jnp.inf` for infinite period and
  apoapsis, `np.sqrt` of a negative argument) are modelled by the
  three-valued type `FVal`;
* `jax.numpy` arrays are modelled as lists; the shape discipline of
  `arr.at[i].set(v)` (which raises when `v` cannot be broadcast to the row
  shape -- broadcasting a length-`m` vector into a length-`k` row with
  `m ≠ k`, `m ≠ 1` is an error) is modelled with `Except`;
* numpy masked arrays are modelled as an index function plus an explicit
  boolean mask and a shape;
* Python `ValueError` is modelled as `Except.error`.

Division by zero follows the Lean `x / 0 = 0` convention; the claims below
never hinge on a division-by-zero value on both sides of an equation at
once, and every NaN / infinity that the source writes deliberately is
tracked through `FVal`.
-/

/-- Value of a float64 cell as produced by the converters: an (exact) real,
positive infinity, or NaN. -/
inductive FVal where
  | val : ℝ → FVal
  | inf : FVal
  | nan : FVal

/-- A float64 cell in the rational container layer: `none` models NaN
(the numpy "missing value" convention), `some x` a finite value. -/
abbrev FloatQ := Option ℚ

namespace ThorKep

/-- Dot product of two 3-vectors, as `jnp.dot` computes it. -/
def dot3 (u v : Fin 3 → ℝ) : ℝ :=
  u 0 * v 0 + u 1 * v 1 + u 2 * v 2

/-- Cross product of two 3-vectors, as `jnp.cross` computes it. -/
def cross3 (u v : Fin 3 → ℝ) : Fin 3 → ℝ :=
  ![u 1 * v 2 - u 2 * v 1, u 2 * v 0 - u 0 * v 2, u 0 * v 1 - u 1 * v 0]

/-- Euclidean norm of a 3-vector (`jnp.linalg.norm`). -/
noncomputable def norm3 (u : Fin 3 → ℝ) : ℝ :=
  Real.sqrt (dot3 u u)

/-- Radians-to-degrees conversion (`jnp.degrees`). -/
noncomputable def deg (x : ℝ) : ℝ := x * (180 / Real.pi)

/-- The `Z_AXIS` constant of keplerian.py. -/
def Z_AXIS : Fin 3 → ℝ := ![0, 0, 1]

/-- Modelled from the spec: the module-level solar gravitational parameter
`Constants.MU` (thor/constants.py is not part of the sources provided);
the spec fixes only that it is a module constant in au^3/day^2, so the
standard Gaussian value is used.  No claim depends on its numeric value. -/
noncomputable def MU : ℝ := 2.9591220828559104e-4

/-- Inverse hyperbolic tangent, `artanh x = log((1+x)/(1-x)) / 2`. -/
noncomputable def artanhR (x : ℝ) : ℝ := Real.log ((1 + x) / (1 - x)) / 2

/-- Modelled from the spec (section 4.2): `calc_mean_anomaly` from the
missing module thor/dynamics/kepler.py.  Mean anomaly from true anomaly:
the inverse of the half-angle anomaly relation of the solver, branch selected
by `e < 1` versus `e > 1` (the parabolic case is folded into the
hyperbolic branch; no claim depends on the parabolic value). -/
noncomputable def calc_mean_anomaly (nu e : ℝ) : ℝ :=
  if e < 1 then
    let E := 2 * Real.arctan (Real.sqrt ((1 - e) / (1 + e)) * Real.tan (nu / 2))
    E - e * Real.sin E
  else
    let H := 2 * artanhR (Real.sqrt ((e - 1) / (e + 1)) * Real.tan (nu / 2))
    e * Real.sinh H - H

/-- Modelled from the spec (section 4.1): one Newton-Raphson pass for the
elliptical Kepler equation `M = E - e sin E`, with fuel; stops when the
residual is below `tol` or the fuel runs out, returning the last iterate. -/
noncomputable def newtonE (e M tol : ℝ) : ℕ → ℝ → ℝ
  | 0, E => E
  | fuel + 1, E =>
    if |E - e * Real.sin E - M| < tol then E
    else newtonE e M tol fuel (E - (E - e * Real.sin E - M) / (1 - e * Real.cos E))

/-- Modelled from the spec (section 4.1): Newton-Raphson for the hyperbolic
Kepler equation `M = e sinh H - H`, with fuel. -/
noncomputable def newtonH (e M tol : ℝ) : ℕ → ℝ → ℝ
  | 0, H => H
  | fuel + 1, H =>
    if |e * Real.sinh H - H - M| < tol then H
    else newtonH e M tol fuel (H - (e * Real.sinh H - H - M) / (e * Real.cosh H - 1))

/-- Modelled from the spec (section 4.1): `solve_kepler` from the missing
module thor/dynamics/kepler.py.  For `e < 1` solve for the eccentric
anomaly by Newton-Raphson with initial guess `M` if `e < 0.8` else `π`,
then convert to true anomaly by the standard half-angle relation; for
`e > 1` solve the hyperbolic form.  The caller guards `e = 1`. -/
noncomputable def solve_kepler (e M : ℝ) (max_iter : ℕ) (tol : ℝ) : ℝ :=
  if e < 1 then
    let E0 := if e < 0.8 then M else Real.pi
    let E := newtonE e M tol max_iter E0
    2 * Real.arctan (Real.sqrt ((1 + e) / (1 - e)) * Real.tan (E / 2))
  else
    let H := newtonH e M tol max_iter M
    2 * Real.arctan (Real.sqrt ((e + 1) / (e - 1)) * Real.tanh (H / 2))

/-! The local values of `_cartesian_to_keplerian` (keplerian.py lines
100-209), one definition per local variable of the source, each a function
of the 6-dimensional Cartesian state `c = (x, y, z, vx, vy, vz)`, the
epoch `t0` and the gravitational parameter `mu`. -/

/-- Position part `r = coords_cartesian[0:3]`. -/
def kep_rvec (c : Fin 6 → ℝ) : Fin 3 → ℝ := ![c 0, c 1, c 2]

/-- Velocity part `v = coords_cartesian[3:6]`. -/
def kep_vvec (c : Fin 6 → ℝ) : Fin 3 → ℝ := ![c 3, c 4, c 5]

/-- Magnitude `r_mag = jnp.linalg.norm(r)`. -/
noncomputable def kep_rmag (c : Fin 6 → ℝ) : ℝ := norm3 (kep_rvec c)

/-- Magnitude `v_mag = jnp.linalg.norm(v)`. -/
noncomputable def kep_vmag (c : Fin 6 → ℝ) : ℝ := norm3 (kep_vvec c)

/-- Specific mechanical energy `sme = v_mag**2 / 2 - mu / r_mag`. -/
noncomputable def kep_sme (c : Fin 6 → ℝ) (mu : ℝ) : ℝ :=
  kep_vmag c ^ 2 / 2 - mu / kep_rmag c

/-- Angular momentum vector `h = jnp.cross(r, v)`. -/
def kep_hvec (c : Fin 6 → ℝ) : Fin 3 → ℝ := cross3 (kep_rvec c) (kep_vvec c)

/-- Magnitude `h_mag = jnp.linalg.norm(h)`. -/
noncomputable def kep_hmag (c : Fin 6 → ℝ) : ℝ := norm3 (kep_hvec c)

/-- Ascending-node vector `n = jnp.cross(Z_AXIS, h)`. -/
def kep_nodevec (c : Fin 6 → ℝ) : Fin 3 → ℝ := cross3 Z_AXIS (kep_hvec c)

/-- Magnitude `n_mag = jnp.linalg.norm(n)`. -/
noncomputable def kep_nodemag (c : Fin 6 → ℝ) : ℝ := norm3 (kep_nodevec c)

/-- Eccentricity vector
`e_vec = ((v_mag**2 - mu/r_mag) * r - (jnp.dot(r, v)) * v) / mu`. -/
noncomputable def kep_evec (c : Fin 6 → ℝ) (mu : ℝ) : Fin 3 → ℝ :=
  fun j => ((kep_vmag c ^ 2 - mu / kep_rmag c) * kep_rvec c j
    - dot3 (kep_rvec c) (kep_vvec c) * kep_vvec c j) / mu

/-- Eccentricity `e = jnp.linalg.norm(e_vec)`. -/
noncomputable def kep_e (c : Fin 6 → ℝ) (mu : ℝ) : ℝ := norm3 (kep_evec c mu)

/-- Semi-latus rectum `p = h_mag**2 / mu`. -/
noncomputable def kep_slr (c : Fin 6 → ℝ) (mu : ℝ) : ℝ := kep_hmag c ^ 2 / mu

/-- Inclination `i = jnp.arccos(h[2] / h_mag)`, radians. -/
noncomputable def kep_inc (c : Fin 6 → ℝ) : ℝ :=
  Real.arccos (kep_hvec c 2 / kep_hmag c)

/-- Longitude of the ascending node, radians:
`raan = arccos(n[0]/n_mag)`, reflected to `2π - raan` when `n[1] < 0`. -/
noncomputable def kep_raan (c : Fin 6 → ℝ) : ℝ :=
  let r0 := Real.arccos (kep_nodevec c 0 / kep_nodemag c)
  if kep_nodevec c 1 < 0 then 2 * Real.pi - r0 else r0

/-- Argument of periapsis, radians:
`ap = arccos(dot(n, e_vec)/(n_mag * e))`, reflected when `e_vec[2] < 0`. -/
noncomputable def kep_ap (c : Fin 6 → ℝ) (mu : ℝ) : ℝ :=
  let a0 := Real.arccos (dot3 (kep_nodevec c) (kep_evec c mu) / (kep_nodemag c * kep_e c mu))
  if kep_evec c mu 2 < 0 then 2 * Real.pi - a0 else a0

/-- True anomaly, radians, before the circular-orbit NaN guard:
`nu = arccos(dot(e_vec, r)/(e * r_mag))`, reflected when `dot(r, v) < 0`. -/
noncomputable def kep_nu_r (c : Fin 6 → ℝ) (mu : ℝ) : ℝ :=
  let n0 := Real.arccos (dot3 (kep_evec c mu) (kep_rvec c) / (kep_e c mu * kep_rmag c))
  if dot3 (kep_rvec c) (kep_vvec c) < 0 then 2 * Real.pi - n0 else n0

/-- True anomaly as published: `jnp.where(e == 0.0, jnp.nan, nu)`. -/
noncomputable def kep_nu (c : Fin 6 → ℝ) (mu : ℝ) : FVal :=
  if kep_e c mu = 0 then FVal.nan else FVal.val (kep_nu_r c mu)

/-- Semi-major axis before the parabolic NaN guard: `mu / (-2 * sme)`. -/
noncomputable def kep_a_r (c : Fin 6 → ℝ) (mu : ℝ) : ℝ :=
  mu / (-2 * kep_sme c mu)

/-- Semi-major axis as published: `jnp.where(e != 1.0, mu/(-2*sme), nan)`. -/
noncomputable def kep_a (c : Fin 6 → ℝ) (mu : ℝ) : FVal :=
  if kep_e c mu = 1 then FVal.nan else FVal.val (kep_a_r c mu)

/-- Periapsis distance `q = jnp.where(e != 1.0, a * (1 - e), p / 2)`. -/
noncomputable def kep_q (c : Fin 6 → ℝ) (mu : ℝ) : ℝ :=
  if kep_e c mu = 1 then kep_slr c mu / 2 else kep_a_r c mu * (1 - kep_e c mu)

/-- Apoapsis distance `Q = jnp.where(e < 1.0, a * (1 + e), jnp.inf)`. -/
noncomputable def kep_Qapo (c : Fin 6 → ℝ) (mu : ℝ) : FVal :=
  if kep_e c mu < 1 then FVal.val (kep_a_r c mu * (1 + kep_e c mu)) else FVal.inf

/-- Mean anomaly in radians, before NaN propagation from `nu`:
`M = calc_mean_anomaly(nu, e)`. -/
noncomputable def kep_M_r (c : Fin 6 → ℝ) (mu : ℝ) : ℝ :=
  calc_mean_anomaly (kep_nu_r c mu) (kep_e c mu)

/-- Mean anomaly as published; NaN exactly when `nu` is NaN (`e = 0`),
since `calc_mean_anomaly` propagates the NaN sentinel. -/
noncomputable def kep_M (c : Fin 6 → ℝ) (mu : ℝ) : FVal :=
  if kep_e c mu = 0 then FVal.nan else FVal.val (kep_M_r c mu)

/-- Mean motion, radians per day:
`lax.cond(e != 1.0, sqrt(mu/|a|**3), sqrt(mu/(2*q**3)))`. -/
noncomputable def kep_nmot (c : Fin 6 → ℝ) (mu : ℝ) : ℝ :=
  if kep_e c mu = 1 then Real.sqrt (mu / (2 * kep_q c mu ^ 3))
  else Real.sqrt (mu / |kep_a_r c mu| ^ 3)

/-- Orbital period `P = lax.cond(e < 1.0, 2π/n, jnp.inf)`. -/
noncomputable def kep_P (c : Fin 6 → ℝ) (mu : ℝ) : FVal :=
  if kep_e c mu < 1 then FVal.val (2 * Real.pi / kep_nmot c mu) else FVal.inf

/-- Time from epoch to periapsis passage,
`dtp = jnp.where((M > π) & (e < 1.0), P - M/n, -M/n)`; in the first branch
`P = 2π/n` since `e < 1`. -/
noncomputable def kep_dtp (c : Fin 6 → ℝ) (mu : ℝ) : ℝ :=
  if Real.pi < kep_M_r c mu ∧ kep_e c mu < 1 then
    2 * Real.pi / kep_nmot c mu - kep_M_r c mu / kep_nmot c mu
  else
    -(kep_M_r c mu / kep_nmot c mu)

/-- Time of periapsis passage `tp = t0 + dtp`; NaN exactly when `M` is NaN
(`e = 0`), by NaN propagation through the `jnp.where` false branch. -/
noncomputable def kep_tp (c : Fin 6 → ℝ) (t0 mu : ℝ) : FVal :=
  if kep_e c mu = 0 then FVal.nan else FVal.val (t0 + kep_dtp c mu)

/-- The 13-component output vector of `_cartesian_to_keplerian`
(keplerian.py lines 100-209), in source order
`(a, p, q, Q, e, i, raan, ap, M, nu, n, P, tp)`, with the angular
components converted to degrees exactly as the source does. -/
noncomputable def cartesian_to_keplerian_single (c : Fin 6 → ℝ) (t0 mu : ℝ) : List FVal :=
  [ kep_a c mu,
    FVal.val (kep_slr c mu),
    FVal.val (kep_q c mu),
    kep_Qapo c mu,
    FVal.val (kep_e c mu),
    FVal.val (deg (kep_inc c)),
    FVal.val (deg (kep_raan c)),
    FVal.val (deg (kep_ap c mu)),
    (if kep_e c mu = 0 then FVal.nan else FVal.val (deg (kep_M_r c mu))),
    (if kep_e c mu = 0 then FVal.nan else FVal.val (deg (kep_nu_r c mu))),
    FVal.val (deg (kep_nmot c mu)),
    kep_P c mu,
    kep_tp c t0 mu ]

/-- The function `_cartesian_to_cometary` (cometary.py lines 51-88): delegates to
`_cartesian_to_keplerian` and returns the components at indices
`[1, 2, 3, 4, 5, -1]` of its 13-vector (index `-1` is index 12 for a
length-13 jax array). -/
noncomputable def cartesian_to_cometary_single (c : Fin 6 → ℝ) (t0 mu : ℝ) : List FVal :=
  let k := cartesian_to_keplerian_single c t0 mu
  [ k.getD 1 FVal.nan, k.getD 2 FVal.nan, k.getD 3 FVal.nan,
    k.getD 4 FVal.nan, k.getD 5 FVal.nan, k.getD 12 FVal.nan ]

/-- The buffer `jnp.zeros((n, m))` as a list of `n` rows of `m` float cells. -/
def jnpZeros2 (n m : ℕ) : List (List FVal) :=
  List.replicate n (List.replicate m (FVal.val 0))

/-- The update `arr.at[i].set(v)` for a 2-D jax array: writing a length-`m` vector
into a length-`k` row requires `m = k` (or `m = 1`, broadcast; the sources
only ever write full vectors, so that case is omitted); otherwise jax
raises an incompatible-shapes error, modelled as `Except.error`. -/
def setRow (arr : List (List FVal)) (i : ℕ) (v : List FVal) :
    Except String (List (List FVal)) :=
  match arr.get? i with
  | none => Except.error "index out of range"
  | some row =>
      if row.length = v.length then Except.ok (arr.set i v)
      else Except.error "incompatible shapes for broadcasting"

/-- The batched `cartesian_to_keplerian` (keplerian.py lines 250-304): a
`lax.fori_loop` writing `_cartesian_to_keplerian(coords[i], t0[i], mu)`
into row `i` of a buffer created as `jnp.zeros((N, 11))`. -/
noncomputable def cartesian_to_keplerian_batched
    (coords : List (Fin 6 → ℝ)) (t0 : List ℝ) (mu : ℝ) :
    Except String (List (List FVal)) :=
  (List.range coords.length).foldlM
    (fun acc i =>
      setRow acc i (cartesian_to_keplerian_single (coords.getD i (fun _ => 0)) (t0.getD i 0) mu))
    (jnpZeros2 coords.length 11)

/-- The function `_keplerian_to_cartesian` (keplerian.py lines 307-416): the six
Cartesian components built from `(a, e, i, raan, ap, M)`.  When
`e = 1` the `lax.cond` yields `nu = jnp.nan`, which poisons every output
component; otherwise all six are finite reals obtained from the perifocal
position/velocity rotated by `R_z(raan) R_x(i) R_z(ap)`. -/
noncomputable def keplerian_to_cartesian_single
    (k : Fin 6 → ℝ) (mu : ℝ) (max_iter : ℕ) (tol : ℝ) : List FVal :=
  if k 1 = 1 then List.replicate 6 FVal.nan
  else
    let a := k 0
    let e := k 1
    let i := k 2 * (Real.pi / 180)
    let raan := k 3 * (Real.pi / 180)
    let ap := k 4 * (Real.pi / 180)
    let M := k 5 * (Real.pi / 180)
    let p := a * (1 - e ^ 2)
    let nu := solve_kepler e M max_iter tol
    let rP := p * Real.cos nu / (1 + e * Real.cos nu)
    let rQ := p * Real.sin nu / (1 + e * Real.cos nu)
    let vP := -Real.sqrt (mu / p) * Real.sin nu
    let vQ := Real.sqrt (mu / p) * (e + Real.cos nu)
    let c1 := Real.cos ap
    let s1 := Real.sin ap
    let c2 := Real.cos i
    let s2 := Real.sin i
    let c3 := Real.cos raan
    let s3 := Real.sin raan
    -- rows of P3 @ P2 @ P1 applied to (rP, rQ, 0) and (vP, vQ, 0)
    let m00 := c3 * c1 - s3 * c2 * s1
    let m01 := -(c3 * s1) - s3 * c2 * c1
    let m10 := s3 * c1 + c3 * c2 * s1
    let m11 := -(s3 * s1) + c3 * c2 * c1
    let m20 := s2 * s1
    let m21 := s2 * c1
    [ FVal.val (m00 * rP + m01 * rQ),
      FVal.val (m10 * rP + m11 * rQ),
      FVal.val (m20 * rP + m21 * rQ),
      FVal.val (m00 * vP + m01 * vQ),
      FVal.val (m10 * vP + m11 * vQ),
      FVal.val (m20 * vP + m21 * vQ) ]

/-- The batched `keplerian_to_cartesian` (keplerian.py lines 418-473): a
`lax.fori_loop` writing the single-element conversion into row `i` of a
buffer created as `jnp.zeros((N, 6))`. -/
noncomputable def keplerian_to_cartesian_batched
    (coords : List (Fin 6 → ℝ)) (mu : ℝ) (max_iter : ℕ) (tol : ℝ) :
    Except String (List (List FVal)) :=
  (List.range coords.length).foldlM
    (fun acc i =>
      setRow acc i (keplerian_to_cartesian_single (coords.getD i (fun _ => 0)) mu max_iter tol))
    (jnpZeros2 coords.length 6)

/-- Read a Cartesian output row back as a state vector: the batched
Keplerian-to-Cartesian output rows hold finite floats (`FVal.val`), which
`CartesianCoordinates` then stores as plain values. -/
noncomputable def rowToState (l : List FVal) : Fin 6 → ℝ :=
  fun j => match l.getD j.val FVal.nan with
    | FVal.val x => x
    | _ => 0

/-- The Keplerian round trip of section 8 of the spec: convert elements to
Cartesian states with the batched `keplerian_to_cartesian` and convert
those states back with the batched `cartesian_to_keplerian`. -/
noncomputable def keplerian_roundtrip (elems : List (Fin 6 → ℝ)) (t0 : List ℝ) (mu : ℝ) :
    Except String (List (List FVal)) :=
  (keplerian_to_cartesian_batched elems mu 100 (1e-15)).bind
    (fun cart => cartesian_to_keplerian_batched (cart.map rowToState) t0 mu)

/-- The golden Keplerian fixture of the spec: `a = 1.5` au, `e = 0.2`,
`i = 10` deg, `raan = 50` deg, `ap = 80` deg, `M = 30` deg. -/
noncomputable def keplerFixture : Fin 6 → ℝ :=
  fun j => if j = 0 then 1.5 else if j = 1 then 0.2 else if j = 2 then 10
    else if j = 3 then 50 else if j = 4 then 80 else 30

end ThorKep

namespace ThorContainers

open ThorKep

/-- A numpy masked array of coordinates of shape `(n, 6)`
(np.ma.zeros((N, 6)) with its boolean mask): `data r j` is the stored
float (NaN modelled as `none`), `mask r j = true` means the cell is
masked. -/
structure MaskedCoords where
  n : ℕ
  data : ℕ → Fin 6 → FloatQ
  mask : ℕ → Fin 6 → Bool

/-- Column assignment `coords[:, d] = q; coords.mask[:, d] = isnan(q)`
(coordinates.py lines 66-67): the data of column `d` becomes the supplied
array and its mask is set exactly where the supplied value is NaN. -/
def setColumn (c : MaskedCoords) (d : Fin 6) (qs : List FloatQ) : MaskedCoords :=
  { n := c.n,
    data := fun r j => if j = d then qs.getD r none else c.data r j,
    mask := fun r j => if j = d then (qs.getD r none).isNone else c.mask r j }

/-- The function `_ingest_coordinate` (coordinates.py lines 19-69).  `q = None` returns
the existing coordinates unchanged; otherwise a fresh fully-masked
`(len(q), 6)` array is created when none exists, a length mismatch with an
existing array raises `ValueError`, and then column `d` is written with
its mask set from `isnan`. -/
def ingest_coordinate (q : Option (List FloatQ)) (d : Fin 6)
    (coords : Option MaskedCoords) : Except String (Option MaskedCoords) :=
  match q with
  | none => Except.ok coords
  | some qs =>
    match coords with
    | none =>
        let base : MaskedCoords :=
          { n := qs.length, data := fun _ _ => some 0, mask := fun _ _ => true }
        Except.ok (some (setColumn base d qs))
    | some c =>
        if c.n = qs.length then Except.ok (some (setColumn c d qs))
        else Except.error "q needs to be the same length as the existing coordinates."

/-- The ingestion loop of `Coordinates.__init__` (coordinates.py lines
137-139): fold `_ingest_coordinate` over the six positional coordinate
arrays in order. -/
def coordinates_init (args : Fin 6 → Option (List FloatQ)) :
    Except String (Option MaskedCoords) :=
  (List.finRange 6).foldlM (fun acc d => ingest_coordinate (args d) d acc) none

/-- A numpy (possibly masked) covariance array of shape `(n, d1, d2)`:
`isMasked` records whether the input is a `np.ma.MaskedArray`, `data r i j`
the entries and `maskA r i j` the mask (all-false for a plain ndarray). -/
structure CovarianceArray where
  n : ℕ
  d1 : ℕ
  d2 : ℕ
  isMasked : Bool
  data : ℕ → ℕ → ℕ → ℚ
  maskA : ℕ → ℕ → ℕ → Bool

/-- Number of masked dimensions of coordinate row `r`. -/
def maskedCount (c : MaskedCoords) (r : ℕ) : ℕ :=
  (Finset.univ.filter (fun j : Fin 6 => c.mask r j = true)).card

/-- Number of coordinate columns that are masked in every row
(`coords.mask.all(axis=0)` summed). -/
def fullyMaskedCols (c : MaskedCoords) : ℕ :=
  (Finset.univ.filter (fun d : Fin 6 => (List.range c.n).all (fun r => c.mask r d))).card

/-- Whether row/column `i`/`j` of the expanded covariance of row `r` is
masked: the covariance mask mirrors the coordinate mask on both axes
(coordinates.py lines 120-121). -/
def covMaskRC (c : MaskedCoords) (r : ℕ) (i j : Fin 6) : Bool :=
  c.mask r i || c.mask r j

/-- Row-major rank of the unmasked position `(i, j)` among the unmasked
positions of the expanded covariance of row `r`; this is the index into
`covariance[r].flatten()` that the numpy boolean-mask assignment
`covariance_[n][~covariance_[n].mask] = covariance[n].flatten()` gives it. -/
def unmaskedRank (c : MaskedCoords) (r : ℕ) (i j : Fin 6) : ℕ :=
  (Finset.univ.filter (fun p : Fin 6 × Fin 6 =>
    p.1.val * 6 + p.2.val < i.val * 6 + j.val ∧ covMaskRC c r p.1 p.2 = false)).card

/-- The function `_ingest_covariance` (coordinates.py lines 71-124), faithfully
including the Python chained comparison
`covariance.shape[1] != covariance.shape[2] != axes`, which evaluates as
`(shape[1] != shape[2]) and (shape[2] != axes)`.  A masked `(n, 6, 6)`
input is returned as-is; otherwise a `(n, 6, 6)` masked array is built and
the numpy boolean-mask assignment raises `ValueError` whenever the number of
input entries differs from the number of unmasked slots of some row. -/
def ingest_covariance (coords : MaskedCoords) (cov : CovarianceArray) :
    Except String CovarianceArray :=
  let axes := 6 - fullyMaskedCols coords
  if cov.n ≠ coords.n then
    Except.error "Every coordinate in coords should have an associated covariance."
  else if cov.d1 ≠ cov.d2 ∧ cov.d2 ≠ axes then
    Except.error "Coordinates have axes defined dimensions, expected covariance matrix shapes of (N, axes, axes)."
  else if cov.isMasked ∧ cov.d1 = 6 ∧ cov.d2 = 6 then
    Except.ok cov
  else if (List.range coords.n).all
      (fun r => cov.d1 * cov.d2 = (6 - maskedCount coords r) * (6 - maskedCount coords r)) then
    Except.ok
      { n := coords.n, d1 := 6, d2 := 6, isMasked := true,
        data := fun r i j =>
          if h : i < 6 ∧ j < 6 then
            let fi : Fin 6 := ⟨i, h.1⟩
            let fj : Fin 6 := ⟨j, h.2⟩
            if covMaskRC coords r fi fj then 0
            else
              let t := unmaskedRank coords r fi fj
              cov.data r (t / cov.d2) (t % cov.d2)
          else 0,
        maskA := fun r i j =>
          if h : i < 6 ∧ j < 6 then covMaskRC coords r ⟨i, h.1⟩ ⟨j, h.2⟩ else false }
  else
    Except.error "NumPy boolean array indexing assignment size mismatch"

/-- The constant `COVARIANCE_ROTATION_TOLERANCE = 1e-25` (cartesian.py line 35). -/
def COVARIANCE_ROTATION_TOLERANCE : ℚ := 1 / 10 ^ 25

/-- The covariance part of `CartesianCoordinates.rotate` (cartesian.py
lines 216-220): `matrix @ cov @ matrix.T`, then every element of magnitude
below the tolerance is set to exactly 0. -/
def rotateCovariance (m cov : Matrix (Fin 6) (Fin 6) ℚ) :
    Matrix (Fin 6) (Fin 6) ℚ :=
  Matrix.of fun i j =>
    let v := (m * cov * m.transpose) i j
    if |v| < COVARIANCE_ROTATION_TOLERANCE then 0 else v

/-- A `CartesianCoordinates` container (cartesian.py): `n` rows of six
float values with their mask, optional per-row covariance matrices, the
epoch array and the origin/frame tags. -/
structure CartesianCoordinatesL where
  nrows : ℕ
  values : ℕ → Fin 6 → ℚ
  maskV : ℕ → Fin 6 → Bool
  covariances : Option (ℕ → Matrix (Fin 6) (Fin 6) ℚ)
  times : ℕ → ℚ
  origin : String
  frame : String

/-- The method `CartesianCoordinates.rotate` (cartesian.py lines 187-236): the values
are multiplied by `matrix.T` on the right (`np.ma.dot` treats masked cells
as 0, and the masked positions are re-set to NaN, hence re-masked, on
construction of the result), covariances are rotated and cleaned by
`rotateCovariance`, and a new container is built with the same times and
origin and with frame `frame_out`.  The receiver is not modified: the
source operates on `deepcopy`/fresh arrays throughout. -/
def CartesianCoordinatesL.rotate (c : CartesianCoordinatesL)
    (m : Matrix (Fin 6) (Fin 6) ℚ) (frame_out : String) : CartesianCoordinatesL :=
  { nrows := c.nrows,
    values := fun r j => ∑ k, m j k * (if c.maskV r k then 0 else c.values r k),
    maskV := c.maskV,
    covariances := c.covariances.map (fun f r => rotateCovariance m (f r)),
    times := c.times,
    origin := c.origin,
    frame := frame_out }

/-- A `KeplerianCoordinates` container (keplerian.py lines 475-520):
rows of the six fundamental elements `(a, e, i, raan, ap, M)`, the epoch
array, origin/frame tags and the stored gravitational parameter
`self._mu`. -/
structure KeplerianCoordinatesL where
  values : List (Fin 6 → ℝ)
  times : List ℝ
  origin : String
  frame : String
  mu : ℝ

/-- Square root `np.sqrt` on a float: NaN for a negative argument. -/
noncomputable def np_sqrt (x : ℝ) : FVal :=
  if x < 0 then FVal.nan else FVal.val (Real.sqrt x)

/-- The scalar computed by the `KeplerianCoordinates.P` property
(keplerian.py lines 580-582): `np.sqrt(4 * π**2 * a**3 / mu)`. -/
noncomputable def keplerianP_prop (a mu : ℝ) : FVal :=
  np_sqrt (4 * Real.pi ^ 2 * a ^ 3 / mu)

/-- The `P` property applied to a container: element-wise over the
semi-major-axis column with the `mu` of the container. -/
noncomputable def KeplerianCoordinatesL.P (kc : KeplerianCoordinatesL) : List FVal :=
  kc.values.map (fun row => keplerianP_prop (row 0) kc.mu)

/-- The method `KeplerianCoordinates.to_cartesian` (keplerian.py lines 588-620): the
nominal Cartesian states are computed by
`keplerian_to_cartesian(self.values.filled(), mu=MU, max_iter=100,
tol=1e-15)` -- with the module-level constant `MU`, not `self.mu` -- and a
new Cartesian container is assembled with the same times, origin and
frame.  The covariance branch (`transform_covariances_jacobian`, a module
not among the provided sources, called equally without a `mu` argument) is
outside the claims about the nominal states and is not modelled. -/
noncomputable def KeplerianCoordinatesL.to_cartesian (kc : KeplerianCoordinatesL) :
    Except String (List (List FVal)) × List ℝ × String × String :=
  (keplerian_to_cartesian_batched kc.values MU 100 (1e-15), kc.times, kc.origin, kc.frame)

end ThorContainers

namespace ThorWitness

open ThorKep

/-- A concrete Cartesian state used to evaluate the converters:
position `(1, 0, 0)` au, velocity `(0, 1/2, 0)` au/day.  With `mu = 1`
this is a bound elliptical orbit with eccentricity `3/4`. -/
noncomputable def stateA : Fin 6 → ℝ :=
  fun j => if j = 0 then 1 else if j = 4 then 1 / 2 else 0

/-- A concrete hyperbolic Keplerian container: one row with `a = -1` au
and `e = 2` (a negative semi-major axis is exactly the `e > 1` regime the
forward conversion produces, since `a = mu/(-2 sme)` and `sme > 0` there),
with `mu = 1`. -/
noncomputable def hyperbolicKC : ThorContainers.KeplerianCoordinatesL :=
  { values := [fun j => if j = 0 then -1 else if j = 1 then 2 else 0],
    times := [0], origin := "heliocentric", frame := "ecliptic", mu := 1 }

/-- A covariance with distinct diagonal entries `1..6` and every
off-diagonal entry equal to `1e-30`. -/
def cov30 : Matrix (Fin 6) (Fin 6) ℚ :=
  Matrix.of fun i j => if i = j then (1 + i.val : ℚ) else 1 / 10 ^ 30

/-- An orthonormal rotation with rational entries: a Givens rotation by
the 3-4-5 angle in the (0, 1) plane, identity elsewhere. -/
def givensR : Matrix (Fin 6) (Fin 6) ℚ :=
  Matrix.of fun i j =>
    if i.val = 0 ∧ j.val = 0 then 3 / 5
    else if i.val = 0 ∧ j.val = 1 then 4 / 5
    else if i.val = 1 ∧ j.val = 0 then -(4 / 5)
    else if i.val = 1 ∧ j.val = 1 then 3 / 5
    else if i.val = j.val then 1 else 0

/-- One coordinate row with dimensions 4 and 5 fully masked: only 4 of the
6 coordinate dimensions are unmasked. -/
def coordsMasked45 : ThorContainers.MaskedCoords :=
  { n := 1, data := fun _ _ => some 0, mask := fun _ j => decide (4 ≤ j.val) }

/-- A full `(1, 6, 6)` masked-array covariance input. -/
def cov66Masked : ThorContainers.CovarianceArray :=
  { n := 1, d1 := 6, d2 := 6, isMasked := true,
    data := fun _ _ _ => 1, maskA := fun _ _ _ => false }

lemma stateA_rmag : kep_rmag stateA = 1 := by
  simp [kep_rmag, norm3, dot3, kep_rvec, stateA]

lemma stateA_vmag_sq : kep_vmag stateA ^ 2 = 1 / 4 := by
  rw [kep_vmag, norm3, Real.sq_sqrt (by simp [dot3, kep_vvec, stateA]; try norm_num)]
  simp [dot3, kep_vvec, stateA]
  try norm_num

lemma stateA_rv : dot3 (kep_rvec stateA) (kep_vvec stateA) = 0 := by
  simp [dot3, kep_rvec, kep_vvec, stateA]

lemma stateA_sme : kep_sme stateA 1 = -(7 / 8) := by
  rw [kep_sme, stateA_vmag_sq, stateA_rmag]
  norm_num

lemma stateA_evec : kep_evec stateA 1 = ![-(3 / 4), 0, 0] := by
  funext j
  rw [kep_evec, stateA_vmag_sq, stateA_rmag, stateA_rv]
  fin_cases j <;> (simp [kep_rvec, kep_vvec, stateA]; try norm_num)

lemma stateA_e : kep_e stateA 1 = 3 / 4 := by
  rw [kep_e, stateA_evec, norm3]
  have : dot3 ![-(3 / 4), 0, 0] ![-(3 / 4), 0, 0] = (3 / 4 : ℝ) ^ 2 := by
    simp [dot3]; norm_num
  rw [this, Real.sqrt_sq (by norm_num)]

lemma stateA_a : kep_a_r stateA 1 = 4 / 7 := by
  rw [kep_a_r, stateA_sme]
  norm_num

lemma stateA_q : kep_q stateA 1 = 1 / 7 := by
  rw [kep_q, if_neg (by rw [stateA_e]; norm_num), stateA_a, stateA_e]
  norm_num

lemma stateA_hvec : kep_hvec stateA = ![0, 0, 1 / 2] := by
  funext j
  fin_cases j <;> simp [kep_hvec, cross3, kep_rvec, kep_vvec, stateA]

lemma stateA_slr : kep_slr stateA 1 = 1 / 4 := by
  rw [kep_slr, kep_hmag, stateA_hvec, norm3,
    Real.sq_sqrt (by simp [dot3]; try norm_num)]
  simp [dot3]
  try norm_num

end ThorWitness

namespace ThorKep

lemma cartesian_to_keplerian_single_length (c : Fin 6 → ℝ) (t0 mu : ℝ) :
    (cartesian_to_keplerian_single c t0 mu).length = 13 := by
  simp [cartesian_to_keplerian_single]

lemma keplerian_to_cartesian_single_length (k : Fin 6 → ℝ) (mu : ℝ) (mi : ℕ) (tol : ℝ) :
    (keplerian_to_cartesian_single k mu mi tol).length = 6 := by
  unfold keplerian_to_cartesian_single
  split <;> simp

/-- On any one-row input the batched Cartesian-to-Keplerian conversion
raises: the very first `at[i].set` writes the 13-component single-element
result into an 11-wide row. -/
lemma cartesian_to_keplerian_batched_singleton (v : Fin 6 → ℝ) (t0s : List ℝ) (mu : ℝ) :
    cartesian_to_keplerian_batched [v] t0s mu =
      Except.error "incompatible shapes for broadcasting" := by
  unfold cartesian_to_keplerian_batched
  simp [List.range_succ, List.foldlM, jnpZeros2, setRow,
    cartesian_to_keplerian_single_length]

/-- On a one-row input the batched Keplerian-to-Cartesian conversion
succeeds: the single-element result is 6-wide, matching the row buffer. -/
lemma keplerian_to_cartesian_batched_singleton (k : Fin 6 → ℝ) (mu : ℝ) (mi : ℕ) (tol : ℝ) :
    keplerian_to_cartesian_batched [k] mu mi tol =
      Except.ok [keplerian_to_cartesian_single k mu mi tol] := by
  unfold keplerian_to_cartesian_batched
  simp [List.range_succ, List.foldlM, jnpZeros2, setRow,
    keplerian_to_cartesian_single_length]

end ThorKep

namespace ThorClaims

open ThorKep ThorContainers ThorWitness

/-- C1: the claimed Keplerian-to-Cartesian-to-Keplerian round trip cannot
even produce elements: the batched `cartesian_to_keplerian` initialises an
`(N, 11)` buffer but `_cartesian_to_keplerian` returns 13 components, so
the write of row 0 raises an incompatible-shapes error for every input --
here evaluated at the golden fixture of the spec. -/
theorem keplerian_roundtrip_raises :
    keplerian_roundtrip [keplerFixture] [59000] MU =
      Except.error "incompatible shapes for broadcasting" := by
  unfold keplerian_roundtrip
  rw [keplerian_to_cartesian_batched_singleton]
  simp only [Except.bind, List.map]
  exact cartesian_to_keplerian_batched_singleton _ _ _

/-- C3: the batched `cartesian_to_keplerian` does not return the rows of
the single-element conversion: for the concrete one-row input `stateA` it
raises the jax incompatible-shapes error, because the single-element
conversion returns 13 components while each buffer row is 11 wide. -/
theorem cartesian_to_keplerian_batched_raises :
    cartesian_to_keplerian_batched [stateA] [(0 : ℝ)] 1 =
      Except.error "incompatible shapes for broadcasting" ∧
    (cartesian_to_keplerian_single stateA 0 1).length = 13 :=
  ⟨cartesian_to_keplerian_batched_singleton stateA [0] 1,
   cartesian_to_keplerian_single_length stateA 0 1⟩

/-- C5: `KeplerianCoordinates.to_cartesian` ignores the stored `mu`: two
containers with identical elements, times, origin and frame but arbitrary
different `mu` values produce identical Cartesian output, because the
conversion is invoked with the module constant `MU`. -/
theorem to_cartesian_ignores_stored_mu (v : List (Fin 6 → ℝ)) (t : List ℝ)
    (o f : String) (mu₁ mu₂ : ℝ) :
    KeplerianCoordinatesL.to_cartesian ⟨v, t, o, f, mu₁⟩ =
      KeplerianCoordinatesL.to_cartesian ⟨v, t, o, f, mu₂⟩ := rfl

/-- C9: `CartesianCoordinates.rotate` builds a new container whose frame
is `frame_out` while the origin, epochs, row count and mask are those of
the receiver; the receiver is untouched, the embedding being a pure
function of it exactly as the source only reads `self` and assembles fresh
arrays. -/
theorem rotate_returns_new_container (c : CartesianCoordinatesL)
    (m : Matrix (Fin 6) (Fin 6) ℚ) (f : String) :
    (c.rotate m f).frame = f ∧ (c.rotate m f).origin = c.origin ∧
    (c.rotate m f).times = c.times ∧ (c.rotate m f).nrows = c.nrows ∧
    (c.rotate m f).maskV = c.maskV :=
  ⟨rfl, rfl, rfl, rfl, rfl⟩

/-- C4: for every Cartesian state whose mean anomaly is a (non-NaN) value
`m`, the returned time of periapsis passage is `t0 + Δt` with
`Δt = P - M/n` when `M > π` and `e < 1` (where `P = 2π/n` is exactly the
period the conversion publishes for `e < 1`, second conjunct), and
`Δt = -M/n` in every other case. -/
theorem tp_branch_rule (c : Fin 6 → ℝ) (t0 mu m : ℝ)
    (hM : kep_M c mu = FVal.val m) :
    kep_tp c t0 mu = FVal.val (t0 +
      (if Real.pi < m ∧ kep_e c mu < 1
        then 2 * Real.pi / kep_nmot c mu - m / kep_nmot c mu
        else -(m / kep_nmot c mu)))
    ∧ (kep_e c mu < 1 → kep_P c mu = FVal.val (2 * Real.pi / kep_nmot c mu)) := by
  have he : kep_e c mu ≠ 0 := by
    intro h
    rw [kep_M, if_pos h] at hM
    exact FVal.noConfusion hM
  have hm : kep_M_r c mu = m := by
    rw [kep_M, if_neg he] at hM
    exact FVal.val.inj hM
  constructor
  · rw [kep_tp, if_neg he]
    unfold kep_dtp
    rw [hm]
  · intro hlt
    rw [kep_P, if_pos hlt]

/-- C4 witness: the state `stateA` has eccentricity `3/4 ≠ 0`, so its mean
anomaly is a value and the branch rule applies at `t0 = 0`, `mu = 1`. -/
theorem tp_branch_rule_witness :
    kep_M stateA 1 = FVal.val (kep_M_r stateA 1) ∧
    (kep_tp stateA 0 1 = FVal.val (0 +
      (if Real.pi < kep_M_r stateA 1 ∧ kep_e stateA 1 < 1
        then 2 * Real.pi / kep_nmot stateA 1 - kep_M_r stateA 1 / kep_nmot stateA 1
        else -(kep_M_r stateA 1 / kep_nmot stateA 1)))
    ∧ (kep_e stateA 1 < 1 → kep_P stateA 1 = FVal.val (2 * Real.pi / kep_nmot stateA 1))) := by
  have hM : kep_M stateA 1 = FVal.val (kep_M_r stateA 1) := by
    rw [kep_M, if_neg (by rw [stateA_e]; norm_num)]
  exact ⟨hM, tp_branch_rule stateA 0 1 (kep_M_r stateA 1) hM⟩

/-- C2: `_cartesian_to_cometary` does not return the documented
`(q, e, i, raan, ap, tp)`: at the state `stateA` (with `t0 = 0`,
`mu = 1`) its first component is the semi-latus rectum `p = 1/4`, whereas
the periapsis distance of that orbit, `q = a(1-e)`, is `1/7`.  The
selection indices `[1, 2, 3, 4, 5, -1]` address the 11-component layout of
the batched docstring, not the 13-component vector that
`_cartesian_to_keplerian` actually returns. -/
theorem cometary_first_component_not_q :
    (cartesian_to_cometary_single stateA 0 1).getD 0 FVal.nan =
      FVal.val (kep_slr stateA 1)
    ∧ kep_slr stateA 1 = 1 / 4
    ∧ kep_a_r stateA 1 * (1 - kep_e stateA 1) = 1 / 7
    ∧ FVal.val ((1 : ℝ) / 4) ≠ FVal.val ((1 : ℝ) / 7) := by
  refine ⟨?_, stateA_slr, ?_, ?_⟩
  · simp [cartesian_to_cometary_single, cartesian_to_keplerian_single]
  · rw [stateA_a, stateA_e]
    norm_num
  · intro h
    have := FVal.val.inj h
    norm_num at this

/-- On a negative semi-major axis (the hyperbolic regime) the
`KeplerianCoordinates.P` property formula takes `np.sqrt` of a negative
number, hence NaN. -/
lemma keplerianP_prop_of_neg (a mu : ℝ) (ha : a < 0) (hmu : 0 < mu) :
    ThorContainers.keplerianP_prop a mu = FVal.nan := by
  have hπ := Real.pi_pos
  have ha3 : a ^ 3 < 0 := by
    have h2 : 0 < a * a := mul_pos_of_neg_of_neg ha ha
    calc a ^ 3 = a * (a * a) := by ring
    _ < 0 := mul_neg_of_neg_of_pos ha h2
  have hnum : 4 * Real.pi ^ 2 * a ^ 3 < 0 :=
    mul_neg_of_pos_of_neg (by positivity) ha3
  have hneg : 4 * Real.pi ^ 2 * a ^ 3 / mu < 0 := div_neg_of_neg_of_pos hnum hmu
  unfold ThorContainers.keplerianP_prop ThorContainers.np_sqrt
  rw [if_pos hneg]

/-- C6 counterexample: on the hyperbolic container the
`KeplerianCoordinates.P` property evaluates `np.sqrt` of the negative
number `4π²a³/mu`, which is NaN -- not the `+∞` the claim asserts. -/
theorem period_property_nan_on_hyperbolic :
    hyperbolicKC.P = [FVal.nan] ∧ FVal.nan ≠ FVal.inf := by
  constructor
  · have hrow : hyperbolicKC.P = [ThorContainers.keplerianP_prop (-1) 1] := by
      simp [ThorContainers.KeplerianCoordinatesL.P, hyperbolicKC]
    rw [hrow, keplerianP_prop_of_neg (-1) 1 (by norm_num) (by norm_num)]
  · intro h
    exact FVal.noConfusion h

/-- C6 (amended): the `2π/n` versus `+∞` period rule holds for the `P`
element of `_cartesian_to_keplerian`; the `KeplerianCoordinates.P`
property computes `np.sqrt(4π²a³/mu)`, which coincides with `2π/n`
(for the mean motion `n = sqrt(mu/|a|³)`) on elliptical orbits with
`a > 0`, `mu > 0`, but evaluates to NaN rather than `+∞` when `a < 0`,
the hyperbolic regime. -/
theorem period_rule :
    (∀ (c : Fin 6 → ℝ) (mu : ℝ),
      (kep_e c mu < 1 → kep_P c mu = FVal.val (2 * Real.pi / kep_nmot c mu))
      ∧ (1 ≤ kep_e c mu → kep_P c mu = FVal.inf))
    ∧ (∀ a mu : ℝ, 0 < a → 0 < mu →
      ThorContainers.keplerianP_prop a mu =
        FVal.val (2 * Real.pi / Real.sqrt (mu / |a| ^ 3)))
    ∧ (∀ a mu : ℝ, a < 0 → 0 < mu →
      ThorContainers.keplerianP_prop a mu = FVal.nan) := by
  refine ⟨fun c mu => ⟨fun h => ?_, fun h => ?_⟩, fun a mu ha hmu => ?_, fun a mu ha hmu => ?_⟩
  · rw [kep_P, if_pos h]
  · rw [kep_P, if_neg (not_lt.mpr h)]
  · have hx : (0 : ℝ) < a ^ 3 / mu := by positivity
    unfold ThorContainers.keplerianP_prop ThorContainers.np_sqrt
    rw [if_neg (by push_neg; positivity)]
    have h4 : 4 * Real.pi ^ 2 * a ^ 3 / mu = (2 * Real.pi) ^ 2 * (a ^ 3 / mu) := by
      ring
    rw [h4, Real.sqrt_mul (by positivity), Real.sqrt_sq (by positivity),
      abs_of_pos ha, show mu / a ^ 3 = (a ^ 3 / mu)⁻¹ from (inv_div _ _).symm,
      Real.sqrt_inv]
    rw [div_eq_mul_inv (2 * Real.pi), inv_inv]
  · exact keplerianP_prop_of_neg a mu ha hmu

/-- C6 witness: the period rule applied at the elliptical state `stateA`
(`e = 3/4 < 1`), at `a = 1`, `mu = 1` for the elliptical property form,
and at `a = -1`, `mu = 1` for the hyperbolic NaN case. -/
theorem period_rule_witness :
    (kep_e stateA 1 < 1 ∧ kep_P stateA 1 = FVal.val (2 * Real.pi / kep_nmot stateA 1))
    ∧ ThorContainers.keplerianP_prop 1 1 =
        FVal.val (2 * Real.pi / Real.sqrt (1 / |(1 : ℝ)| ^ 3))
    ∧ ThorContainers.keplerianP_prop (-1) 1 = FVal.nan := by
  have h1 : kep_e stateA 1 < 1 := by rw [stateA_e]; norm_num
  exact ⟨⟨h1, (period_rule.1 stateA 1).1 h1⟩,
    period_rule.2.1 1 1 (by norm_num) (by norm_num),
    period_rule.2.2 (-1) 1 (by norm_num) (by norm_num)⟩

/-- C7 (amended): after `rotate`, every covariance element whose rotated
magnitude is below `COVARIANCE_ROTATION_TOLERANCE` is exactly 0; in
particular a covariance whose off-diagonal entries are below the tolerance
(such as `1e-30`) keeps exact zeros in those positions under the identity
rotation.  (The stronger "any orthonormal matrix" form of the claim is
refuted by `covariance_rotation_mixing`.) -/
theorem covariance_rotation_snaps (m cov : Matrix (Fin 6) (Fin 6) ℚ) (i j : Fin 6)
    (h : |(m * cov * m.transpose) i j| < COVARIANCE_ROTATION_TOLERANCE) :
    rotateCovariance m cov i j = 0 ∧
    (∀ cv : Matrix (Fin 6) (Fin 6) ℚ, ∀ a b : Fin 6, a ≠ b →
      |cv a b| < COVARIANCE_ROTATION_TOLERANCE → rotateCovariance 1 cv a b = 0) := by
  constructor
  · unfold rotateCovariance
    simp only [Matrix.of_apply]
    rw [if_pos h]
  · intro cv a b _ hsmall
    unfold rotateCovariance
    simp only [Matrix.of_apply, Matrix.transpose_one, Matrix.mul_one, Matrix.one_mul]
    rw [if_pos hsmall]

/-- C7 witness: the snap rule applied to `cov30` under the identity
rotation at the off-diagonal position `(0, 1)`, whose entry `1e-30` is
below the `1e-25` tolerance. -/
theorem covariance_rotation_snaps_witness :
    |((1 : Matrix (Fin 6) (Fin 6) ℚ) * cov30 * (1 : Matrix (Fin 6) (Fin 6) ℚ).transpose) 0 1| <
      COVARIANCE_ROTATION_TOLERANCE ∧
    rotateCovariance 1 cov30 0 1 = 0 := by
  have h : |((1 : Matrix (Fin 6) (Fin 6) ℚ) * cov30 * (1 : Matrix (Fin 6) (Fin 6) ℚ).transpose) 0 1| <
      COVARIANCE_ROTATION_TOLERANCE := by
    simp only [Matrix.transpose_one, Matrix.mul_one, Matrix.one_mul]
    rw [show cov30 0 1 = 1 / 10 ^ 30 from rfl]
    rw [COVARIANCE_ROTATION_TOLERANCE]
    rw [abs_of_pos (by norm_num)]
    norm_num
  exact ⟨h, (covariance_rotation_snaps 1 cov30 0 1 h).1⟩

/-- C7 counterexample: `givensR` is orthonormal and `cov30` has all
off-diagonal entries equal to `1e-30`, yet the rotated, cleaned covariance
is not 0 at the off-diagonal position `(0, 1)`: the rotation mixes the
diagonal entries `1` and `2` into that slot (value `12/25 - 7/25·1e-30`),
far above the tolerance. -/
theorem covariance_rotation_mixing :
    givensR * givensR.transpose = 1
    ∧ (∀ i j : Fin 6, i ≠ j → cov30 i j = 1 / 10 ^ 30)
    ∧ rotateCovariance givensR cov30 0 1 ≠ 0 := by
  refine ⟨?_, ?_, ?_⟩
  · ext i j
    rw [Matrix.mul_apply, Fin.sum_univ_six]
    rcases i with ⟨iv, hi⟩
    rcases j with ⟨jv, hj⟩
    interval_cases iv <;> interval_cases jv <;>
      (simp +decide only [givensR, Matrix.of_apply, Matrix.transpose_apply,
        Matrix.one_apply, Fin.ext_iff]
       norm_num)
  · intro i j hij
    rw [cov30]
    simp only [Matrix.of_apply]
    rw [if_neg hij]
  · have hv : (givensR * cov30 * givensR.transpose) 0 1 = 12 / 25 - 7 / (25 * 10 ^ 30) := by
      simp +decide only [Matrix.mul_apply, Fin.sum_univ_six, givensR, cov30,
        Matrix.of_apply, Matrix.transpose_apply, Fin.ext_iff]
      norm_num
    unfold rotateCovariance
    simp only [Matrix.of_apply]
    rw [hv, if_neg (by rw [COVARIANCE_ROTATION_TOLERANCE, abs_of_pos (by norm_num)]; norm_num)]
    norm_num

/-- C8: `_ingest_covariance` accepts a `6x6` masked covariance although
only 4 coordinate dimensions are unmasked, raising no `ValueError`: the
chained comparison `covariance.shape[1] != covariance.shape[2] != axes`
is vacuous for square covariances, and a masked `(N, 6, 6)` input is then
returned as-is. -/
theorem ingest_covariance_accepts_mismatch :
    6 - ThorContainers.fullyMaskedCols coordsMasked45 = 4
    ∧ cov66Masked.d1 = 6 ∧ cov66Masked.d2 = 6
    ∧ ThorContainers.ingest_covariance coordsMasked45 cov66Masked =
        Except.ok cov66Masked := by
  refine ⟨by decide, rfl, rfl, ?_⟩
  unfold ThorContainers.ingest_covariance
  simp +decide [coordsMasked45, cov66Masked]

/-- C10: `_ingest_coordinate` sets the mask of the supplied dimension to
masked exactly at the NaN entries of the supplied array and leaves every
other dimension unchanged in the mask (so a dimension never supplied stays
fully masked, the fresh array being created with `mask = 1`); a `None`
argument leaves the coordinates untouched, and ingesting into existing
coordinates of the same length succeeds and writes the column. -/
theorem ingest_coordinate_mask_rule :
    (∀ (qs : List FloatQ) (d d' : Fin 6) (r : ℕ) (c0 : ThorContainers.MaskedCoords),
      (ThorContainers.setColumn c0 d qs).mask r d = (qs.getD r none).isNone
      ∧ (d' ≠ d → (ThorContainers.setColumn c0 d qs).mask r d' = c0.mask r d'))
    ∧ (∀ qs d, ThorContainers.ingest_coordinate (some qs) d none =
        Except.ok (some (ThorContainers.setColumn
          { n := qs.length, data := fun _ _ => some 0, mask := fun _ _ => true } d qs)))
    ∧ (∀ qs d c0, c0.n = qs.length →
        ThorContainers.ingest_coordinate (some qs) d (some c0) =
          Except.ok (some (ThorContainers.setColumn c0 d qs)))
    ∧ (∀ d coords, ThorContainers.ingest_coordinate none d coords = Except.ok coords) := by
  refine ⟨fun qs d d' r c0 => ⟨?_, fun h => ?_⟩, fun qs d => rfl, fun qs d c0 h => ?_, fun d coords => rfl⟩
  · simp [ThorContainers.setColumn]
  · simp [ThorContainers.setColumn, if_neg h]
  · simp [ThorContainers.ingest_coordinate, h]

/-- C10 witness: ingesting the array `[1.0, NaN]` as dimension 0 into an
existing fully-masked 2-row coordinate array: row 1 of column 0 is masked
(its entry is NaN), row 1 of column 1 keeps its prior (masked) state. -/
theorem ingest_coordinate_mask_rule_witness :
    ((ThorContainers.setColumn
        { n := 2, data := fun _ _ => some 0, mask := fun _ _ => true } 0
        [some 1, none]).mask 1 0 = (([some 1, none] : List FloatQ).getD 1 none).isNone
    ∧ (ThorContainers.setColumn
        { n := 2, data := fun _ _ => some 0, mask := fun _ _ => true } 0
        [some 1, none]).mask 1 1 =
        (({ n := 2, data := fun _ _ => some 0, mask := fun _ _ => true } :
          ThorContainers.MaskedCoords).mask 1 1))
    ∧ ThorContainers.ingest_coordinate (some [some 1, none]) 0
        (some { n := 2, data := fun _ _ => some 0, mask := fun _ _ => true }) =
        Except.ok (some (ThorContainers.setColumn
          { n := 2, data := fun _ _ => some 0, mask := fun _ _ => true } 0
          [some 1, none])) :=
  ⟨⟨(ingest_coordinate_mask_rule.1 [some 1, none] 0 1 1
      { n := 2, data := fun _ _ => some 0, mask := fun _ _ => true }).1,
    (ingest_coordinate_mask_rule.1 [some 1, none] 0 1 1
      { n := 2, data := fun _ _ => some 0, mask := fun _ _ => true }).2 (by decide)⟩,
   ingest_coordinate_mask_rule.2.2.1 [some 1, none] 0
      { n := 2, data := fun _ _ => some 0, mask := fun _ _ => true } rfl⟩

end ThorClaims
